import Mathlib

/-!
Shallow embedding of the event dispatch and subscription engine of the
monio-napi binding (src/lib.rs): category masks, the per-slot callback
registry (`InputHook`), the generic listener (`start_listen` / `HookJs`),
the dispatch closures handed to the native hook, session lifecycle
(`start` / `stop`), and the key/button enum conversion tables.

Machine integers: all masks are `u32` values on which only `|`, `&` and
`<<` with shift amounts below 11 are performed, so they are embedded as
`Nat` (no overflow is possible; every value stays below 2^11 except a
caller-supplied mask, for which `|`/`&` on `Nat` agree with `u32` bit for
bit). `f64` fields are embedded as `Float`; no arithmetic is performed on
them, they are only moved between records. Native timestamps
(`SystemTime` with `duration_since(UNIX_EPOCH)`) are embedded as
`Option Float`: `none` models an unrepresentable timestamp (the `Err`
case of `duration_since`), `some s` a representable one of `s` seconds.
Threadsafe-function handles and native hook handles are opaque to the
dispatch logic; they are embedded as `Nat` identifiers.
-/

namespace Monio

/-- Native event category enum (monio::EventType), eleven categories. -/
inductive EventType where
  | HookEnabled : EventType
  | HookDisabled : EventType
  | KeyPressed : EventType
  | KeyReleased : EventType
  | KeyTyped : EventType
  | MousePressed : EventType
  | MouseReleased : EventType
  | MouseClicked : EventType
  | MouseMoved : EventType
  | MouseDragged : EventType
  | MouseWheel : EventType
deriving DecidableEq, Repr

/-- Binding-side event category enum (EventTypeJs), same eleven categories. -/
inductive EventTypeJs where
  | HookEnabled : EventTypeJs
  | HookDisabled : EventTypeJs
  | KeyPressed : EventTypeJs
  | KeyReleased : EventTypeJs
  | KeyTyped : EventTypeJs
  | MousePressed : EventTypeJs
  | MouseReleased : EventTypeJs
  | MouseClicked : EventTypeJs
  | MouseMoved : EventTypeJs
  | MouseDragged : EventTypeJs
  | MouseWheel : EventTypeJs
deriving DecidableEq, Repr

/-- Embedding of the Rust conversion From EventType for EventTypeJs. -/
def eventTypeToJs : EventType → EventTypeJs
  | .HookEnabled => .HookEnabled
  | .HookDisabled => .HookDisabled
  | .KeyPressed => .KeyPressed
  | .KeyReleased => .KeyReleased
  | .KeyTyped => .KeyTyped
  | .MousePressed => .MousePressed
  | .MouseReleased => .MouseReleased
  | .MouseClicked => .MouseClicked
  | .MouseMoved => .MouseMoved
  | .MouseDragged => .MouseDragged
  | .MouseWheel => .MouseWheel

/-- Embedding of `event_type_bit`: the bitmask bit of one event category. -/
def event_type_bit : EventType → Nat
  | .HookEnabled => 1 <<< 0
  | .HookDisabled => 1 <<< 1
  | .KeyPressed => 1 <<< 2
  | .KeyReleased => 1 <<< 3
  | .KeyTyped => 1 <<< 4
  | .MousePressed => 1 <<< 5
  | .MouseReleased => 1 <<< 6
  | .MouseClicked => 1 <<< 7
  | .MouseMoved => 1 <<< 8
  | .MouseDragged => 1 <<< 9
  | .MouseWheel => 1 <<< 10

/-- Native mouse button enum (monio::Button); Unknown carries a raw code. -/
inductive Button where
  | Left : Button
  | Right : Button
  | Middle : Button
  | Button4 : Button
  | Button5 : Button
  | Unknown : Nat → Button
deriving DecidableEq, Repr

/-- Binding-side mouse button enum (ButtonJs). -/
inductive ButtonJs where
  | Left : ButtonJs
  | Right : ButtonJs
  | Middle : ButtonJs
  | Button4 : ButtonJs
  | Button5 : ButtonJs
  | Unknown : ButtonJs
deriving DecidableEq, Repr

/-- Embedding of the Rust conversion From Button for ButtonJs. -/
def buttonToButtonJs : Button → ButtonJs
  | .Left => .Left
  | .Right => .Right
  | .Middle => .Middle
  | .Button4 => .Button4
  | .Button5 => .Button5
  | .Unknown _ => .Unknown

/-- Embedding of the Rust conversion From ButtonJs for Button. -/
def buttonJsToButton : ButtonJs → Button
  | .Left => Button.Left
  | .Right => Button.Right
  | .Middle => Button.Middle
  | .Button4 => Button.Button4
  | .Button5 => Button.Button5
  | .Unknown => Button.Unknown 0

/-- Native scroll direction enum (monio::ScrollDirection). -/
inductive ScrollDirection where
  | Up : ScrollDirection
  | Down : ScrollDirection
  | Left : ScrollDirection
  | Right : ScrollDirection
deriving DecidableEq, Repr

/-- Binding-side scroll direction enum (ScrollDirectionJs). -/
inductive ScrollDirectionJs where
  | Up : ScrollDirectionJs
  | Down : ScrollDirectionJs
  | Left : ScrollDirectionJs
  | Right : ScrollDirectionJs
deriving DecidableEq, Repr

/-- Embedding of the Rust conversion From ScrollDirection for ScrollDirectionJs. -/
def scrollDirectionToJs : ScrollDirection → ScrollDirectionJs
  | .Up => .Up
  | .Down => .Down
  | .Left => .Left
  | .Right => .Right
/-- Native key enum from the wrapped input library (monio::Key): the same named
variants as the binding enum, except Unknown carries a raw platform code. -/
inductive Key where
  | KeyA : Key
  | KeyB : Key
  | KeyC : Key
  | KeyD : Key
  | KeyE : Key
  | KeyF : Key
  | KeyG : Key
  | KeyH : Key
  | KeyI : Key
  | KeyJ : Key
  | KeyK : Key
  | KeyL : Key
  | KeyM : Key
  | KeyN : Key
  | KeyO : Key
  | KeyP : Key
  | KeyQ : Key
  | KeyR : Key
  | KeyS : Key
  | KeyT : Key
  | KeyU : Key
  | KeyV : Key
  | KeyW : Key
  | KeyX : Key
  | KeyY : Key
  | KeyZ : Key
  | Num0 : Key
  | Num1 : Key
  | Num2 : Key
  | Num3 : Key
  | Num4 : Key
  | Num5 : Key
  | Num6 : Key
  | Num7 : Key
  | Num8 : Key
  | Num9 : Key
  | F1 : Key
  | F2 : Key
  | F3 : Key
  | F4 : Key
  | F5 : Key
  | F6 : Key
  | F7 : Key
  | F8 : Key
  | F9 : Key
  | F10 : Key
  | F11 : Key
  | F12 : Key
  | Escape : Key
  | Space : Key
  | Enter : Key
  | Backspace : Key
  | Tab : Key
  | ShiftLeft : Key
  | ShiftRight : Key
  | ControlLeft : Key
  | ControlRight : Key
  | AltLeft : Key
  | AltRight : Key
  | MetaLeft : Key
  | MetaRight : Key
  | CapsLock : Key
  | Delete : Key
  | ArrowLeft : Key
  | ArrowRight : Key
  | ArrowUp : Key
  | ArrowDown : Key
  | Unknown : Nat → Key
  | Insert : Key
  | Home : Key
  | End : Key
  | PageUp : Key
  | PageDown : Key
  | NumLock : Key
  | ScrollLock : Key
  | PrintScreen : Key
  | Pause : Key
  | Grave : Key
  | Minus : Key
  | Equal : Key
  | BracketLeft : Key
  | BracketRight : Key
  | Backslash : Key
  | Semicolon : Key
  | Quote : Key
  | Comma : Key
  | Period : Key
  | Slash : Key
  | F13 : Key
  | F14 : Key
  | F15 : Key
  | F16 : Key
  | F17 : Key
  | F18 : Key
  | F19 : Key
  | F20 : Key
  | F21 : Key
  | F22 : Key
  | F23 : Key
  | F24 : Key
  | Numpad0 : Key
  | Numpad1 : Key
  | Numpad2 : Key
  | Numpad3 : Key
  | Numpad4 : Key
  | Numpad5 : Key
  | Numpad6 : Key
  | Numpad7 : Key
  | Numpad8 : Key
  | Numpad9 : Key
  | NumpadAdd : Key
  | NumpadSubtract : Key
  | NumpadMultiply : Key
  | NumpadDivide : Key
  | NumpadDecimal : Key
  | NumpadEnter : Key
  | NumpadEqual : Key
  | VolumeUp : Key
  | VolumeDown : Key
  | VolumeMute : Key
  | MediaPlayPause : Key
  | MediaStop : Key
  | MediaNext : Key
  | MediaPrevious : Key
  | BrowserBack : Key
  | BrowserForward : Key
  | BrowserRefresh : Key
  | BrowserStop : Key
  | BrowserSearch : Key
  | BrowserFavorites : Key
  | BrowserHome : Key
  | LaunchMail : Key
  | LaunchApp1 : Key
  | LaunchApp2 : Key
  | IntlBackslash : Key
  | IntlYen : Key
  | IntlRo : Key
  | ContextMenu : Key


/-- Binding-side key enum (KeyJs), in source declaration order. -/
inductive KeyJs where
  | KeyA : KeyJs
  | KeyB : KeyJs
  | KeyC : KeyJs
  | KeyD : KeyJs
  | KeyE : KeyJs
  | KeyF : KeyJs
  | KeyG : KeyJs
  | KeyH : KeyJs
  | KeyI : KeyJs
  | KeyJ : KeyJs
  | KeyK : KeyJs
  | KeyL : KeyJs
  | KeyM : KeyJs
  | KeyN : KeyJs
  | KeyO : KeyJs
  | KeyP : KeyJs
  | KeyQ : KeyJs
  | KeyR : KeyJs
  | KeyS : KeyJs
  | KeyT : KeyJs
  | KeyU : KeyJs
  | KeyV : KeyJs
  | KeyW : KeyJs
  | KeyX : KeyJs
  | KeyY : KeyJs
  | KeyZ : KeyJs
  | Num0 : KeyJs
  | Num1 : KeyJs
  | Num2 : KeyJs
  | Num3 : KeyJs
  | Num4 : KeyJs
  | Num5 : KeyJs
  | Num6 : KeyJs
  | Num7 : KeyJs
  | Num8 : KeyJs
  | Num9 : KeyJs
  | F1 : KeyJs
  | F2 : KeyJs
  | F3 : KeyJs
  | F4 : KeyJs
  | F5 : KeyJs
  | F6 : KeyJs
  | F7 : KeyJs
  | F8 : KeyJs
  | F9 : KeyJs
  | F10 : KeyJs
  | F11 : KeyJs
  | F12 : KeyJs
  | Escape : KeyJs
  | Space : KeyJs
  | Enter : KeyJs
  | Backspace : KeyJs
  | Tab : KeyJs
  | ShiftLeft : KeyJs
  | ShiftRight : KeyJs
  | ControlLeft : KeyJs
  | ControlRight : KeyJs
  | AltLeft : KeyJs
  | AltRight : KeyJs
  | MetaLeft : KeyJs
  | MetaRight : KeyJs
  | CapsLock : KeyJs
  | Delete : KeyJs
  | ArrowLeft : KeyJs
  | ArrowRight : KeyJs
  | ArrowUp : KeyJs
  | ArrowDown : KeyJs
  | Unknown : KeyJs
  | Insert : KeyJs
  | Home : KeyJs
  | End : KeyJs
  | PageUp : KeyJs
  | PageDown : KeyJs
  | NumLock : KeyJs
  | ScrollLock : KeyJs
  | PrintScreen : KeyJs
  | Pause : KeyJs
  | Grave : KeyJs
  | Minus : KeyJs
  | Equal : KeyJs
  | BracketLeft : KeyJs
  | BracketRight : KeyJs
  | Backslash : KeyJs
  | Semicolon : KeyJs
  | Quote : KeyJs
  | Comma : KeyJs
  | Period : KeyJs
  | Slash : KeyJs
  | F13 : KeyJs
  | F14 : KeyJs
  | F15 : KeyJs
  | F16 : KeyJs
  | F17 : KeyJs
  | F18 : KeyJs
  | F19 : KeyJs
  | F20 : KeyJs
  | F21 : KeyJs
  | F22 : KeyJs
  | F23 : KeyJs
  | F24 : KeyJs
  | Numpad0 : KeyJs
  | Numpad1 : KeyJs
  | Numpad2 : KeyJs
  | Numpad3 : KeyJs
  | Numpad4 : KeyJs
  | Numpad5 : KeyJs
  | Numpad6 : KeyJs
  | Numpad7 : KeyJs
  | Numpad8 : KeyJs
  | Numpad9 : KeyJs
  | NumpadAdd : KeyJs
  | NumpadSubtract : KeyJs
  | NumpadMultiply : KeyJs
  | NumpadDivide : KeyJs
  | NumpadDecimal : KeyJs
  | NumpadEnter : KeyJs
  | NumpadEqual : KeyJs
  | VolumeUp : KeyJs
  | VolumeDown : KeyJs
  | VolumeMute : KeyJs
  | MediaPlayPause : KeyJs
  | MediaStop : KeyJs
  | MediaNext : KeyJs
  | MediaPrevious : KeyJs
  | BrowserBack : KeyJs
  | BrowserForward : KeyJs
  | BrowserRefresh : KeyJs
  | BrowserStop : KeyJs
  | BrowserSearch : KeyJs
  | BrowserFavorites : KeyJs
  | BrowserHome : KeyJs
  | LaunchMail : KeyJs
  | LaunchApp1 : KeyJs
  | LaunchApp2 : KeyJs
  | IntlBackslash : KeyJs
  | IntlYen : KeyJs
  | IntlRo : KeyJs
  | ContextMenu : KeyJs


/-- Embedding of the Rust conversion From KeyJs for Key. -/
def keyJsToKey : KeyJs → Key
  | .KeyA => .KeyA
  | .KeyB => .KeyB
  | .KeyC => .KeyC
  | .KeyD => .KeyD
  | .KeyE => .KeyE
  | .KeyF => .KeyF
  | .KeyG => .KeyG
  | .KeyH => .KeyH
  | .KeyI => .KeyI
  | .KeyJ => .KeyJ
  | .KeyK => .KeyK
  | .KeyL => .KeyL
  | .KeyM => .KeyM
  | .KeyN => .KeyN
  | .KeyO => .KeyO
  | .KeyP => .KeyP
  | .KeyQ => .KeyQ
  | .KeyR => .KeyR
  | .KeyS => .KeyS
  | .KeyT => .KeyT
  | .KeyU => .KeyU
  | .KeyV => .KeyV
  | .KeyW => .KeyW
  | .KeyX => .KeyX
  | .KeyY => .KeyY
  | .KeyZ => .KeyZ
  | .Num0 => .Num0
  | .Num1 => .Num1
  | .Num2 => .Num2
  | .Num3 => .Num3
  | .Num4 => .Num4
  | .Num5 => .Num5
  | .Num6 => .Num6
  | .Num7 => .Num7
  | .Num8 => .Num8
  | .Num9 => .Num9
  | .F1 => .F1
  | .F2 => .F2
  | .F3 => .F3
  | .F4 => .F4
  | .F5 => .F5
  | .F6 => .F6
  | .F7 => .F7
  | .F8 => .F8
  | .F9 => .F9
  | .F10 => .F10
  | .F11 => .F11
  | .F12 => .F12
  | .Escape => .Escape
  | .Space => .Space
  | .Enter => .Enter
  | .Backspace => .Backspace
  | .Tab => .Tab
  | .ShiftLeft => .ShiftLeft
  | .ShiftRight => .ShiftRight
  | .ControlLeft => .ControlLeft
  | .ControlRight => .ControlRight
  | .AltLeft => .AltLeft
  | .AltRight => .AltRight
  | .MetaLeft => .MetaLeft
  | .MetaRight => .MetaRight
  | .CapsLock => .CapsLock
  | .Delete => .Delete
  | .ArrowLeft => .ArrowLeft
  | .ArrowRight => .ArrowRight
  | .ArrowUp => .ArrowUp
  | .ArrowDown => .ArrowDown
  | .Unknown => .Unknown 0
  | .Insert => .Insert
  | .Home => .Home
  | .End => .End
  | .PageUp => .PageUp
  | .PageDown => .PageDown
  | .NumLock => .NumLock
  | .ScrollLock => .ScrollLock
  | .PrintScreen => .PrintScreen
  | .Pause => .Pause
  | .Grave => .Grave
  | .Minus => .Minus
  | .Equal => .Equal
  | .BracketLeft => .BracketLeft
  | .BracketRight => .BracketRight
  | .Backslash => .Backslash
  | .Semicolon => .Semicolon
  | .Quote => .Quote
  | .Comma => .Comma
  | .Period => .Period
  | .Slash => .Slash
  | .F13 => .F13
  | .F14 => .F14
  | .F15 => .F15
  | .F16 => .F16
  | .F17 => .F17
  | .F18 => .F18
  | .F19 => .F19
  | .F20 => .F20
  | .F21 => .F21
  | .F22 => .F22
  | .F23 => .F23
  | .F24 => .F24
  | .Numpad0 => .Numpad0
  | .Numpad1 => .Numpad1
  | .Numpad2 => .Numpad2
  | .Numpad3 => .Numpad3
  | .Numpad4 => .Numpad4
  | .Numpad5 => .Numpad5
  | .Numpad6 => .Numpad6
  | .Numpad7 => .Numpad7
  | .Numpad8 => .Numpad8
  | .Numpad9 => .Numpad9
  | .NumpadAdd => .NumpadAdd
  | .NumpadSubtract => .NumpadSubtract
  | .NumpadMultiply => .NumpadMultiply
  | .NumpadDivide => .NumpadDivide
  | .NumpadDecimal => .NumpadDecimal
  | .NumpadEnter => .NumpadEnter
  | .NumpadEqual => .NumpadEqual
  | .VolumeUp => .VolumeUp
  | .VolumeDown => .VolumeDown
  | .VolumeMute => .VolumeMute
  | .MediaPlayPause => .MediaPlayPause
  | .MediaStop => .MediaStop
  | .MediaNext => .MediaNext
  | .MediaPrevious => .MediaPrevious
  | .BrowserBack => .BrowserBack
  | .BrowserForward => .BrowserForward
  | .BrowserRefresh => .BrowserRefresh
  | .BrowserStop => .BrowserStop
  | .BrowserSearch => .BrowserSearch
  | .BrowserFavorites => .BrowserFavorites
  | .BrowserHome => .BrowserHome
  | .LaunchMail => .LaunchMail
  | .LaunchApp1 => .LaunchApp1
  | .LaunchApp2 => .LaunchApp2
  | .IntlBackslash => .IntlBackslash
  | .IntlYen => .IntlYen
  | .IntlRo => .IntlRo
  | .ContextMenu => .ContextMenu

/-- Embedding of the Rust conversion From Key for KeyJs. -/
def keyToKeyJs : Key → KeyJs
  | .KeyA => .KeyA
  | .KeyB => .KeyB
  | .KeyC => .KeyC
  | .KeyD => .KeyD
  | .KeyE => .KeyE
  | .KeyF => .KeyF
  | .KeyG => .KeyG
  | .KeyH => .KeyH
  | .KeyI => .KeyI
  | .KeyJ => .KeyJ
  | .KeyK => .KeyK
  | .KeyL => .KeyL
  | .KeyM => .KeyM
  | .KeyN => .KeyN
  | .KeyO => .KeyO
  | .KeyP => .KeyP
  | .KeyQ => .KeyQ
  | .KeyR => .KeyR
  | .KeyS => .KeyS
  | .KeyT => .KeyT
  | .KeyU => .KeyU
  | .KeyV => .KeyV
  | .KeyW => .KeyW
  | .KeyX => .KeyX
  | .KeyY => .KeyY
  | .KeyZ => .KeyZ
  | .Num0 => .Num0
  | .Num1 => .Num1
  | .Num2 => .Num2
  | .Num3 => .Num3
  | .Num4 => .Num4
  | .Num5 => .Num5
  | .Num6 => .Num6
  | .Num7 => .Num7
  | .Num8 => .Num8
  | .Num9 => .Num9
  | .F1 => .F1
  | .F2 => .F2
  | .F3 => .F3
  | .F4 => .F4
  | .F5 => .F5
  | .F6 => .F6
  | .F7 => .F7
  | .F8 => .F8
  | .F9 => .F9
  | .F10 => .F10
  | .F11 => .F11
  | .F12 => .F12
  | .Escape => .Escape
  | .Space => .Space
  | .Enter => .Enter
  | .Backspace => .Backspace
  | .Tab => .Tab
  | .ShiftLeft => .ShiftLeft
  | .ShiftRight => .ShiftRight
  | .ControlLeft => .ControlLeft
  | .ControlRight => .ControlRight
  | .AltLeft => .AltLeft
  | .AltRight => .AltRight
  | .MetaLeft => .MetaLeft
  | .MetaRight => .MetaRight
  | .CapsLock => .CapsLock
  | .Delete => .Delete
  | .ArrowLeft => .ArrowLeft
  | .ArrowRight => .ArrowRight
  | .ArrowUp => .ArrowUp
  | .ArrowDown => .ArrowDown
  | .Unknown _ => .Unknown
  | .Insert => .Insert
  | .Home => .Home
  | .End => .End
  | .PageUp => .PageUp
  | .PageDown => .PageDown
  | .NumLock => .NumLock
  | .ScrollLock => .ScrollLock
  | .PrintScreen => .PrintScreen
  | .Pause => .Pause
  | .Grave => .Grave
  | .Minus => .Minus
  | .Equal => .Equal
  | .BracketLeft => .BracketLeft
  | .BracketRight => .BracketRight
  | .Backslash => .Backslash
  | .Semicolon => .Semicolon
  | .Quote => .Quote
  | .Comma => .Comma
  | .Period => .Period
  | .Slash => .Slash
  | .F13 => .F13
  | .F14 => .F14
  | .F15 => .F15
  | .F16 => .F16
  | .F17 => .F17
  | .F18 => .F18
  | .F19 => .F19
  | .F20 => .F20
  | .F21 => .F21
  | .F22 => .F22
  | .F23 => .F23
  | .F24 => .F24
  | .Numpad0 => .Numpad0
  | .Numpad1 => .Numpad1
  | .Numpad2 => .Numpad2
  | .Numpad3 => .Numpad3
  | .Numpad4 => .Numpad4
  | .Numpad5 => .Numpad5
  | .Numpad6 => .Numpad6
  | .Numpad7 => .Numpad7
  | .Numpad8 => .Numpad8
  | .Numpad9 => .Numpad9
  | .NumpadAdd => .NumpadAdd
  | .NumpadSubtract => .NumpadSubtract
  | .NumpadMultiply => .NumpadMultiply
  | .NumpadDivide => .NumpadDivide
  | .NumpadDecimal => .NumpadDecimal
  | .NumpadEnter => .NumpadEnter
  | .NumpadEqual => .NumpadEqual
  | .VolumeUp => .VolumeUp
  | .VolumeDown => .VolumeDown
  | .VolumeMute => .VolumeMute
  | .MediaPlayPause => .MediaPlayPause
  | .MediaStop => .MediaStop
  | .MediaNext => .MediaNext
  | .MediaPrevious => .MediaPrevious
  | .BrowserBack => .BrowserBack
  | .BrowserForward => .BrowserForward
  | .BrowserRefresh => .BrowserRefresh
  | .BrowserStop => .BrowserStop
  | .BrowserSearch => .BrowserSearch
  | .BrowserFavorites => .BrowserFavorites
  | .BrowserHome => .BrowserHome
  | .LaunchMail => .LaunchMail
  | .LaunchApp1 => .LaunchApp1
  | .LaunchApp2 => .LaunchApp2
  | .IntlBackslash => .IntlBackslash
  | .IntlYen => .IntlYen
  | .IntlRo => .IntlRo
  | .ContextMenu => .ContextMenu

/-- Native keyboard payload (monio::KeyboardData): logical key plus raw code. -/
structure KeyboardData where
  key : Key
  raw_code : Nat

/-- Native mouse payload (monio::MouseData): position plus optional button
(absent for pure movement events). -/
structure MouseData where
  x : Float
  y : Float
  button : Option Button

/-- Native wheel payload (monio::WheelData). -/
structure WheelData where
  x : Float
  y : Float
  direction : ScrollDirection
  delta : Float

/-- Native event record (monio::Event). `time` embeds
`SystemTime` seen through `duration_since(UNIX_EPOCH)`: `none` when the
timestamp is not representable as a duration since the epoch, `some s`
for a representable timestamp of `s` seconds. -/
structure Event where
  event_type : EventType
  time : Option Float
  keyboard : Option KeyboardData
  mouse : Option MouseData
  wheel : Option WheelData

/-- Embedding of the timestamp normalization performed in both dispatch
paths: `event.time.duration_since(UNIX_EPOCH).map(as_secs_f64).unwrap_or(0.0)`. -/
def normalizeTime (t : Option Float) : Float := t.getD 0.0

/-- Binding-side keyboard payload (KeyboardDataJs). -/
structure KeyboardDataJs where
  key : KeyJs
  raw_code : Nat

/-- Binding-side mouse payload (MouseDataJs). -/
structure MouseDataJs where
  x : Float
  y : Float
  button : Option ButtonJs

/-- Binding-side wheel payload (WheelDataJs). -/
structure WheelDataJs where
  x : Float
  y : Float
  direction : ScrollDirectionJs
  delta : Float

/-- Binding-side generic event record (EventJs). -/
structure EventJs where
  event_type : EventTypeJs
  time : Float
  keyboard : Option KeyboardDataJs
  mouse : Option MouseDataJs
  wheel : Option WheelDataJs

/-- Embedding of the Rust conversion From Event-reference for EventJs. -/
def EventJs.fromEvent (event : Event) : EventJs :=
  let time := normalizeTime event.time
  { event_type := eventTypeToJs event.event_type
    time := time
    keyboard := event.keyboard.map fun kb =>
      { key := keyToKeyJs kb.key, raw_code := kb.raw_code }
    mouse := event.mouse.map fun m =>
      { x := m.x, y := m.y, button := m.button.map buttonToButtonJs }
    wheel := event.wheel.map fun w =>
      { x := w.x, y := w.y, direction := scrollDirectionToJs w.direction, delta := w.delta } }

/-- EVENT_MASK_ALL constant (0x7FF). -/
def EVENT_MASK_ALL : Nat := 0x7FF

/-- EVENT_MASK_KEYBOARD constant. -/
def EVENT_MASK_KEYBOARD : Nat := (1 <<< 2) ||| (1 <<< 3) ||| (1 <<< 4)

/-- EVENT_MASK_MOUSE_BUTTONS constant. -/
def EVENT_MASK_MOUSE_BUTTONS : Nat := (1 <<< 5) ||| (1 <<< 6) ||| (1 <<< 7)

/-- EVENT_MASK_MOUSE_MOVEMENT constant. -/
def EVENT_MASK_MOUSE_MOVEMENT : Nat := (1 <<< 8) ||| (1 <<< 9)

/-- EVENT_MASK_MOUSE_WHEEL constant. -/
def EVENT_MASK_MOUSE_WHEEL : Nat := 1 <<< 10

/-- EVENT_MASK_MOUSE_ALL constant. -/
def EVENT_MASK_MOUSE_ALL : Nat :=
  (1 <<< 5) ||| (1 <<< 6) ||| (1 <<< 7) ||| (1 <<< 8) ||| (1 <<< 9) ||| (1 <<< 10)

/-- Loop body of `compute_event_mask`: how one subscription pattern string
extends the accumulated mask. -/
def computeEventMaskStep (mask : Nat) (p : String) : Nat :=
  if p.startsWith ("keyboard:") then mask ||| EVENT_MASK_KEYBOARD
  else if p == "mouse:down" || p == "mouse:up" || p == "mouse:click" then
    mask ||| EVENT_MASK_MOUSE_BUTTONS
  else if p == "mouse:move" then mask ||| EVENT_MASK_MOUSE_MOVEMENT
  else if p == "mouse:scroll" then mask ||| EVENT_MASK_MOUSE_WHEEL
  else if p.startsWith ("mouse:") then mask ||| EVENT_MASK_MOUSE_ALL
  else mask

/-- The accumulated mask of `compute_event_mask` before its final zero check. -/
def computeEventMaskRaw (patterns : List String) : Nat :=
  patterns.foldl computeEventMaskStep 0

/-- Embedding of `compute_event_mask`: fold the patterns, then coerce a zero
result to EVENT_MASK_ALL. -/
def compute_event_mask (patterns : List String) : Nat :=
  let mask := computeEventMaskRaw patterns
  if mask == 0 then EVENT_MASK_ALL else mask

/-- Initial mask installed by `start_listen`:
`event_mask.unwrap_or(EVENT_MASK_ALL)`. -/
def startListenInitMask (event_mask : Option Nat) : Nat :=
  event_mask.getD EVENT_MASK_ALL

/-- Embedding of the per-event closure `start_listen` hands to `run_async`:
`none` models the early return on mask rejection (no conversion, no
cross-boundary call); `some payload` models the non-blocking threadsafe
call carrying the converted event. -/
def startListenOnEvent (mask : Nat) (event : Event) : Option EventJs :=
  let bit := event_type_bit event.event_type
  if mask &&& bit == 0 then none
  else some (EventJs.fromEvent event)

/-- Opaque threadsafe-function handle: only identity matters to dispatch. -/
abbrev TsFn := Nat

/-- Embedding of `InputHookCallbacks`: one optional callback handle per slot. -/
structure InputHookCallbacks where
  key_down : Option TsFn
  key_up : Option TsFn
  mouse_down : Option TsFn
  mouse_up : Option TsFn
  mouse_click : Option TsFn
  mouse_move : Option TsFn
  mouse_wheel : Option TsFn
deriving DecidableEq, Repr

/-- Embedding of `InputHookCallbacks::new`: every slot empty. -/
def InputHookCallbacks.new : InputHookCallbacks :=
  { key_down := none, key_up := none, mouse_down := none, mouse_up := none
    mouse_click := none, mouse_move := none, mouse_wheel := none }

/-- Embedding of `InputHookCallbacks::compute_mask`: OR together the category
bit of each populated slot; the mouse-move slot contributes the MouseMoved and
MouseDragged bits. -/
def InputHookCallbacks.compute_mask (cbs : InputHookCallbacks) : Nat :=
  let mask : Nat := 0
  let mask := if cbs.key_down.isSome then mask ||| (1 <<< 2) else mask
  let mask := if cbs.key_up.isSome then mask ||| (1 <<< 3) else mask
  let mask := if cbs.mouse_down.isSome then mask ||| (1 <<< 5) else mask
  let mask := if cbs.mouse_up.isSome then mask ||| (1 <<< 6) else mask
  let mask := if cbs.mouse_click.isSome then mask ||| (1 <<< 7) else mask
  let mask := if cbs.mouse_move.isSome then mask ||| ((1 <<< 8) ||| (1 <<< 9)) else mask
  let mask := if cbs.mouse_wheel.isSome then mask ||| (1 <<< 10) else mask
  mask

/-- Controller-visible state of an `InputHook`: the registry behind its mutex
together with the published atomic mask. -/
structure InputHookState where
  callbacks : InputHookCallbacks
  mask : Nat
deriving DecidableEq, Repr

/-- Embedding of `InputHook::new`: empty registry, mask zero. -/
def InputHookState.new : InputHookState :=
  { callbacks := InputHookCallbacks.new, mask := 0 }

/-- One registration-side operation on an `InputHook`. -/
inductive RegOp where
  | onKeyDown : TsFn → RegOp
  | onKeyUp : TsFn → RegOp
  | onMouseDown : TsFn → RegOp
  | onMouseUp : TsFn → RegOp
  | onClick : TsFn → RegOp
  | onMouseMove : TsFn → RegOp
  | onWheel : TsFn → RegOp
  | offKeyDown : RegOp
  | offKeyUp : RegOp
  | offMouseDown : RegOp
  | offMouseUp : RegOp
  | offClick : RegOp
  | offMouseMove : RegOp
  | offWheel : RegOp
  | removeAllListeners : RegOp
deriving DecidableEq, Repr

/-- Embedding of the registration and removal methods of `InputHook`: each
on/off method replaces or clears one slot and stores `compute_mask()` of the
updated registry into the atomic; `remove_all_listeners` resets the registry
and stores zero. -/
def applyRegOp (st : InputHookState) (op : RegOp) : InputHookState :=
  match op with
  | .onKeyDown cb =>
    let cbs := { st.callbacks with key_down := some cb }
    { callbacks := cbs, mask := cbs.compute_mask }
  | .onKeyUp cb =>
    let cbs := { st.callbacks with key_up := some cb }
    { callbacks := cbs, mask := cbs.compute_mask }
  | .onMouseDown cb =>
    let cbs := { st.callbacks with mouse_down := some cb }
    { callbacks := cbs, mask := cbs.compute_mask }
  | .onMouseUp cb =>
    let cbs := { st.callbacks with mouse_up := some cb }
    { callbacks := cbs, mask := cbs.compute_mask }
  | .onClick cb =>
    let cbs := { st.callbacks with mouse_click := some cb }
    { callbacks := cbs, mask := cbs.compute_mask }
  | .onMouseMove cb =>
    let cbs := { st.callbacks with mouse_move := some cb }
    { callbacks := cbs, mask := cbs.compute_mask }
  | .onWheel cb =>
    let cbs := { st.callbacks with mouse_wheel := some cb }
    { callbacks := cbs, mask := cbs.compute_mask }
  | .offKeyDown =>
    let cbs := { st.callbacks with key_down := none }
    { callbacks := cbs, mask := cbs.compute_mask }
  | .offKeyUp =>
    let cbs := { st.callbacks with key_up := none }
    { callbacks := cbs, mask := cbs.compute_mask }
  | .offMouseDown =>
    let cbs := { st.callbacks with mouse_down := none }
    { callbacks := cbs, mask := cbs.compute_mask }
  | .offMouseUp =>
    let cbs := { st.callbacks with mouse_up := none }
    { callbacks := cbs, mask := cbs.compute_mask }
  | .offClick =>
    let cbs := { st.callbacks with mouse_click := none }
    { callbacks := cbs, mask := cbs.compute_mask }
  | .offMouseMove =>
    let cbs := { st.callbacks with mouse_move := none }
    { callbacks := cbs, mask := cbs.compute_mask }
  | .offWheel =>
    let cbs := { st.callbacks with mouse_wheel := none }
    { callbacks := cbs, mask := cbs.compute_mask }
  | .removeAllListeners =>
    { callbacks := InputHookCallbacks.new, mask := 0 }

/-- Run a sequence of registration-side operations from a fresh `InputHook`. -/
def runRegOps (ops : List RegOp) : InputHookState :=
  ops.foldl applyRegOp InputHookState.new

/-- The seven routable callback slots. -/
inductive Slot where
  | keyDown : Slot
  | keyUp : Slot
  | mouseDown : Slot
  | mouseUp : Slot
  | click : Slot
  | mouseMove : Slot
  | wheel : Slot
deriving DecidableEq, Repr

/-- Spec-side reading of the invariant: the category bit(s) one slot
contributes, the mouse-move slot contributing both the MouseMoved bit and the
MouseDragged bit. -/
def slotBits : Slot → Nat
  | .keyDown => 1 <<< 2
  | .keyUp => 1 <<< 3
  | .mouseDown => 1 <<< 5
  | .mouseUp => 1 <<< 6
  | .click => 1 <<< 7
  | .mouseMove => (1 <<< 8) ||| (1 <<< 9)
  | .wheel => 1 <<< 10

/-- Whether a slot currently holds a callback. -/
def slotHolds (cbs : InputHookCallbacks) : Slot → Bool
  | .keyDown => cbs.key_down.isSome
  | .keyUp => cbs.key_up.isSome
  | .mouseDown => cbs.mouse_down.isSome
  | .mouseUp => cbs.mouse_up.isSome
  | .click => cbs.mouse_click.isSome
  | .mouseMove => cbs.mouse_move.isSome
  | .wheel => cbs.mouse_wheel.isSome

/-- The seven slots, enumerated. -/
def allSlots : List Slot :=
  [.keyDown, .keyUp, .mouseDown, .mouseUp, .click, .mouseMove, .wheel]

/-- Spec-side mask: the bitwise union of the category bits of exactly the
slots currently holding a callback. -/
def specSlotUnion (cbs : InputHookCallbacks) : Nat :=
  (allSlots.filter (slotHolds cbs)).foldl (fun m s => m ||| slotBits s) 0

/-- Typed keyboard payload (KeyboardEventJs) handed to key callbacks. -/
structure KeyboardEventJs where
  key : KeyJs
  raw_code : Nat
  time : Float

/-- Typed mouse-button payload (MouseButtonEventJs). -/
structure MouseButtonEventJs where
  x : Float
  y : Float
  button : ButtonJs
  time : Float

/-- Typed mouse-move payload (MouseMoveEventJs). -/
structure MouseMoveEventJs where
  x : Float
  y : Float
  time : Float

/-- Typed wheel payload (WheelEventJs). -/
structure WheelEventJs where
  x : Float
  y : Float
  direction : ScrollDirectionJs
  delta : Float
  time : Float

/-- A cross-boundary call made by the per-slot dispatch closure: which callback
handle was invoked, with which typed payload. -/
inductive Delivery where
  | keyDown : TsFn → KeyboardEventJs → Delivery
  | keyUp : TsFn → KeyboardEventJs → Delivery
  | mouseDown : TsFn → MouseButtonEventJs → Delivery
  | mouseUp : TsFn → MouseButtonEventJs → Delivery
  | click : TsFn → MouseButtonEventJs → Delivery
  | mouseMove : TsFn → MouseMoveEventJs → Delivery
  | wheel : TsFn → WheelEventJs → Delivery

/-- Observable outcome of one run of the per-slot dispatch closure:
whether the registry mutex was acquired, and the cross-boundary call made, if
any. The closure itself returns unit and can raise no error. -/
structure DispatchTrace where
  lockedRegistry : Bool
  delivered : Option Delivery

/-- Embedding of the per-event closure `InputHook::start` hands to
`run_async`: the mask is tested before the registry lock; on a miss the
closure returns at once (`lockedRegistry = false`, nothing delivered). On a
hit the registry is read and the event is routed to the slot of its category;
a missing slot or missing payload field routes to nothing; a mouse-button
payload with no button defaults to `Button.Left`; the HookEnabled,
HookDisabled and KeyTyped categories fall to the wildcard arm and are ignored. -/
def inputHookOnEvent (mask : Nat) (cbs : InputHookCallbacks) (event : Event) :
    DispatchTrace :=
  let bit := event_type_bit event.event_type
  if mask &&& bit == 0 then { lockedRegistry := false, delivered := none }
  else
    let time := normalizeTime event.time
    let delivered : Option Delivery :=
      match event.event_type with
      | .KeyPressed =>
        match cbs.key_down, event.keyboard with
        | some tsfn, some kb =>
          some (.keyDown tsfn { key := keyToKeyJs kb.key, raw_code := kb.raw_code, time := time })
        | _, _ => none
      | .KeyReleased =>
        match cbs.key_up, event.keyboard with
        | some tsfn, some kb =>
          some (.keyUp tsfn { key := keyToKeyJs kb.key, raw_code := kb.raw_code, time := time })
        | _, _ => none
      | .MousePressed =>
        match cbs.mouse_down, event.mouse with
        | some tsfn, some m =>
          some (.mouseDown tsfn
            { x := m.x, y := m.y, button := buttonToButtonJs (m.button.getD Button.Left)
              time := time })
        | _, _ => none
      | .MouseReleased =>
        match cbs.mouse_up, event.mouse with
        | some tsfn, some m =>
          some (.mouseUp tsfn
            { x := m.x, y := m.y, button := buttonToButtonJs (m.button.getD Button.Left)
              time := time })
        | _, _ => none
      | .MouseClicked =>
        match cbs.mouse_click, event.mouse with
        | some tsfn, some m =>
          some (.click tsfn
            { x := m.x, y := m.y, button := buttonToButtonJs (m.button.getD Button.Left)
              time := time })
        | _, _ => none
      | .MouseMoved | .MouseDragged =>
        match cbs.mouse_move, event.mouse with
        | some tsfn, some m =>
          some (.mouseMove tsfn { x := m.x, y := m.y, time := time })
        | _, _ => none
      | .MouseWheel =>
        match cbs.mouse_wheel, event.wheel with
        | some tsfn, some w =>
          some (.wheel tsfn
            { x := w.x, y := w.y, direction := scrollDirectionToJs w.direction
              delta := w.delta, time := time })
        | _, _ => none
      | _ => none
    { lockedRegistry := true, delivered := delivered }

/-- Opaque native hook handle (monio::Hook). -/
abbrev HookH := Nat

/-- Embedding of `InputHook::start` as seen through the hook slot it guards:
under the mutex, a present handle fails with the already-running error and
leaves the slot untouched; otherwise a new hook is created, `run_async` is
attempted (its native result is a parameter), a failure is wrapped and the
slot stays empty, and on success the new handle is installed. Returns the
call result together with the hook slot after the call. -/
def inputHookStart (st : Option HookH) (newHook : HookH)
    (runAsyncResult : Except String Unit) : Except String Unit × Option HookH :=
  match st with
  | some h => (Except.error ("Hook is already running"), some h)
  | none =>
    match runAsyncResult with
    | Except.error e => (Except.error ("Failed to start hook: " ++ e), none)
    | Except.ok _ => (Except.ok (), some newHook)

/-- Embedding of `InputHook::stop`: take the handle out of the slot; if one
was present call the native stop (result a parameter), wrapping a failure;
the slot is empty afterwards in every case. -/
def inputHookStop (st : Option HookH) (nativeStop : HookH → Except String Unit) :
    Except String Unit × Option HookH :=
  match st with
  | none => (Except.ok (), none)
  | some h =>
    match nativeStop h with
    | Except.error e => (Except.error ("Failed to stop hook: " ++ e), none)
    | Except.ok _ => (Except.ok (), none)

/-- Embedding of `HookJs::stop`, textually identical to `InputHook::stop`. -/
def hookJsStop (st : Option HookH) (nativeStop : HookH → Except String Unit) :
    Except String Unit × Option HookH :=
  match st with
  | none => (Except.ok (), none)
  | some h =>
    match nativeStop h with
    | Except.error e => (Except.error ("Failed to stop hook: " ++ e), none)
    | Except.ok _ => (Except.ok (), none)

/-! Concrete inputs used by witnesses and counterexamples. -/

/-- A concrete key-press event: key A, raw code 30, at one second past epoch. -/
def sampleKeyEvent : Event :=
  { event_type := EventType.KeyPressed, time := some 1.0
    keyboard := some { key := Key.KeyA, raw_code := 30 }
    mouse := none, wheel := none }

/-- A concrete hook-enabled lifecycle event. -/
def sampleHookEnabledEvent : Event :=
  { event_type := EventType.HookEnabled, time := some 1.0
    keyboard := none, mouse := none, wheel := none }

/-- A concrete mouse-press event whose native payload has no button field. -/
def sampleNoButtonEvent : Event :=
  { event_type := EventType.MousePressed, time := some 2.0
    keyboard := none
    mouse := some { x := 3.0, y := 4.0, button := none }
    wheel := none }

/-- A concrete event with an unrepresentable timestamp. -/
def sampleNoTimeEvent : Event :=
  { event_type := EventType.KeyPressed, time := none
    keyboard := some { key := Key.KeyB, raw_code := 48 }
    mouse := none, wheel := none }

/-- A concrete registry with key-down and the three mouse-button slots filled. -/
def sampleCbs : InputHookCallbacks :=
  { key_down := some 3, key_up := none, mouse_down := some 5, mouse_up := some 6
    mouse_click := some 7, mouse_move := none, mouse_wheel := none }

/-- The time field of the payload carried by a cross-boundary call. -/
def deliveryTime : Delivery → Float
  | .keyDown _ d => d.time
  | .keyUp _ d => d.time
  | .mouseDown _ d => d.time
  | .mouseUp _ d => d.time
  | .click _ d => d.time
  | .mouseMove _ d => d.time
  | .wheel _ d => d.time

/-- The mask computation of the registry, as a function of which slots are
populated; `compute_mask` is definitionally this function applied to the
`isSome` of each slot. -/
def maskFun (b1 b2 b3 b4 b5 b6 b7 : Bool) : Nat :=
  let mask : Nat := 0
  let mask := if b1 then mask ||| (1 <<< 2) else mask
  let mask := if b2 then mask ||| (1 <<< 3) else mask
  let mask := if b3 then mask ||| (1 <<< 5) else mask
  let mask := if b4 then mask ||| (1 <<< 6) else mask
  let mask := if b5 then mask ||| (1 <<< 7) else mask
  let mask := if b6 then mask ||| ((1 <<< 8) ||| (1 <<< 9)) else mask
  let mask := if b7 then mask ||| (1 <<< 10) else mask
  mask

/-! Helper lemmas. -/

/-- Folding over a filtered list is folding over the whole list, acting only
on elements the predicate keeps. -/
theorem foldl_filter {α β : Type} (p : α → Bool) (f : β → α → β) (l : List α) (init : β) :
    (l.filter p).foldl f init = l.foldl (fun acc a => if p a then f acc a else acc) init := by
  induction l generalizing init with
  | nil => rfl
  | cons a l ih => cases h : p a <;> simp [List.filter_cons, h, ih]

/-- The mask computed from the registry is the bitwise union of the bits of
exactly the populated slots. -/
theorem compute_mask_eq_specSlotUnion (cbs : InputHookCallbacks) :
    cbs.compute_mask = specSlotUnion cbs := by
  rw [specSlotUnion, foldl_filter]
  rfl

/-- Every registration-side operation republishes the mask as the
`compute_mask` of the updated registry. -/
theorem applyRegOp_mask (st : InputHookState) (op : RegOp) :
    (applyRegOp st op).mask = (applyRegOp st op).callbacks.compute_mask := by
  cases op <;> rfl


/-- The invariant holds after any run from the fresh state, where it holds
initially. -/
theorem foldl_regOps_mask_inv (ops : List RegOp) (st : InputHookState)
    (h : st.mask = st.callbacks.compute_mask) :
    (ops.foldl applyRegOp st).mask = (ops.foldl applyRegOp st).callbacks.compute_mask := by
  induction ops generalizing st with
  | nil => exact h
  | cons op ops ih => exact ih (applyRegOp st op) (applyRegOp_mask st op)

/-! Claim theorems. -/

/-- C1: after any sequence of per-slot registration and deregistration
operations on a fresh `InputHook`, the published event mask equals exactly the
bitwise union of the category bits of the slots currently holding a callback
(the mouse-move slot contributing both the MouseMoved and MouseDragged bits),
and the run ending in `removeAllListeners` publishes mask zero. -/
theorem runRegOps_mask_eq_specSlotUnion (ops : List RegOp) :
    (runRegOps ops).mask = specSlotUnion (runRegOps ops).callbacks ∧
    (runRegOps (ops ++ [RegOp.removeAllListeners])).mask = 0 := by
  constructor
  · rw [← compute_mask_eq_specSlotUnion]
    exact foldl_regOps_mask_inv ops InputHookState.new rfl
  · rw [runRegOps, List.foldl_append]
    rfl

/-- C4: starting an `InputHook` whose handle slot is occupied fails with the
already-running error and leaves the existing handle unchanged; and because
the check and the installation happen under the one mutex, two start calls on
a stopped hook — serialized by that mutex — yield one success and then one
already-running failure. -/
theorem start_already_running_guard (h nh nh2 : HookH) (r r2 : Except String Unit) :
    inputHookStart (some h) nh r = (Except.error ("Hook is already running"), some h) ∧
    (inputHookStart none nh (Except.ok ())).1 = Except.ok () ∧
    (inputHookStart (inputHookStart none nh (Except.ok ())).2 nh2 r2).1 =
      Except.error ("Hook is already running") :=
  ⟨rfl, rfl, rfl⟩

/-- C5: stopping an already-stopped `InputHook` or `HookJs` succeeds and
changes nothing, and after any stop call the handle slot is empty, so a second
stop in a row never errors. -/
theorem stop_idempotent (st : Option HookH) (f : HookH → Except String Unit) :
    inputHookStop none f = (Except.ok (), none) ∧
    hookJsStop none f = (Except.ok (), none) ∧
    (inputHookStop (inputHookStop st f).2 f).1 = Except.ok () ∧
    (hookJsStop (hookJsStop st f).2 f).1 = Except.ok () := by
  refine ⟨rfl, rfl, ?_, ?_⟩ <;>
    cases st with
    | none => rfl
    | some h => cases hf : f h <;> simp [inputHookStop, hookJsStop, hf]

/-- C10: converting any binding-side key variant to the native key type and
back yields the original variant; the Unknown variant maps through
`Key.Unknown 0`. -/
theorem keyJs_roundtrip :
    (∀ k : KeyJs, keyToKeyJs (keyJsToKey k) = k) ∧
    keyJsToKey KeyJs.Unknown = Key.Unknown 0 := by
  constructor
  · intro k
    cases k <;> rfl
  · rfl

/-- Unfolding `compute_mask` through `maskFun`. -/
theorem compute_mask_eq_maskFun (cbs : InputHookCallbacks) :
    cbs.compute_mask = maskFun cbs.key_down.isSome cbs.key_up.isSome
      cbs.mouse_down.isSome cbs.mouse_up.isSome cbs.mouse_click.isSome
      cbs.mouse_move.isSome cbs.mouse_wheel.isSome := rfl

/-- No combination of populated slots sets the HookEnabled, HookDisabled or
KeyTyped bits. -/
theorem maskFun_no_unrouted_bits :
    ∀ b1 b2 b3 b4 b5 b6 b7 : Bool,
      maskFun b1 b2 b3 b4 b5 b6 b7 &&& ((1 <<< 0) ||| (1 <<< 1) ||| (1 <<< 4)) = 0 := by
  decide

/-- C3: an event whose category bit is absent from the currently published
mask is rejected before the registry lock: the per-slot dispatch closure
returns at once with the registry untouched and no cross-boundary call, and
the generic-listener closure likewise makes no cross-boundary call. -/
theorem mask_miss_fast_reject (mask : Nat) (cbs : InputHookCallbacks) (e : Event)
    (h : mask &&& event_type_bit e.event_type = 0) :
    inputHookOnEvent mask cbs e = { lockedRegistry := false, delivered := none } ∧
    startListenOnEvent mask e = none := by
  constructor
  · simp [inputHookOnEvent, h]
  · simp [startListenOnEvent, h]

/-- C3 witness: a key-press event against mask zero is fast-rejected on both
paths. -/
theorem mask_miss_fast_reject_witness :
    inputHookOnEvent 0 InputHookCallbacks.new sampleKeyEvent =
      { lockedRegistry := false, delivered := none } ∧
    startListenOnEvent 0 sampleKeyEvent = none :=
  mask_miss_fast_reject 0 InputHookCallbacks.new sampleKeyEvent rfl

/-- C6: no registration can set the mask bits of HookEnabled, HookDisabled or
KeyTyped, the per-slot dispatch routes those three categories to no slot
whatever the mask and registry hold, while the generic listener mode with the
all-categories mask does deliver them. -/
theorem unrouted_categories_never_delivered (cbs : InputHookCallbacks) (mask : Nat)
    (e : Event)
    (h : e.event_type = EventType.HookEnabled ∨ e.event_type = EventType.HookDisabled ∨
      e.event_type = EventType.KeyTyped) :
    cbs.compute_mask &&& ((1 <<< 0) ||| (1 <<< 1) ||| (1 <<< 4)) = 0 ∧
    (inputHookOnEvent mask cbs e).delivered = none ∧
    startListenOnEvent EVENT_MASK_ALL e = some (EventJs.fromEvent e) := by
  refine ⟨?_, ?_, ?_⟩
  · rw [compute_mask_eq_maskFun]
    exact maskFun_no_unrouted_bits _ _ _ _ _ _ _
  · obtain ⟨t, tm, kb, m, w⟩ := e
    rcases h with h | h | h <;> subst h <;>
      · unfold inputHookOnEvent
        dsimp only
        split
        · rfl
        · rfl
  · obtain ⟨t, tm, kb, m, w⟩ := e
    rcases h with h | h | h <;> subst h <;>
      simp [startListenOnEvent, event_type_bit, EVENT_MASK_ALL]

/-- C6 witness: a hook-enabled event is dropped by the per-slot path even
against a full mask, the empty registry has no unrouted bits set, and the
generic path forwards that same event. -/
theorem unrouted_categories_never_delivered_witness :
    InputHookCallbacks.new.compute_mask &&& ((1 <<< 0) ||| (1 <<< 1) ||| (1 <<< 4)) = 0 ∧
    (inputHookOnEvent 2047 InputHookCallbacks.new sampleHookEnabledEvent).delivered = none ∧
    startListenOnEvent EVENT_MASK_ALL sampleHookEnabledEvent =
      some (EventJs.fromEvent sampleHookEnabledEvent) :=
  unrouted_categories_never_delivered InputHookCallbacks.new 2047 sampleHookEnabledEvent
    (Or.inl rfl)

/-- C9: an event that passes the mask check but whose native record lacks the
payload field its category requires invokes no callback and raises no error:
the dispatch trace records nothing delivered, whatever the mask and the
registry are. -/
theorem missing_payload_silently_dropped (mask : Nat) (cbs : InputHookCallbacks)
    (tm : Option Float) (kb : Option KeyboardData) (m : Option MouseData)
    (w : Option WheelData) :
    (inputHookOnEvent mask cbs
      { event_type := EventType.KeyPressed, time := tm, keyboard := none
        mouse := m, wheel := w }).delivered = none ∧
    (inputHookOnEvent mask cbs
      { event_type := EventType.KeyReleased, time := tm, keyboard := none
        mouse := m, wheel := w }).delivered = none ∧
    (inputHookOnEvent mask cbs
      { event_type := EventType.MousePressed, time := tm, keyboard := kb
        mouse := none, wheel := w }).delivered = none ∧
    (inputHookOnEvent mask cbs
      { event_type := EventType.MouseReleased, time := tm, keyboard := kb
        mouse := none, wheel := w }).delivered = none ∧
    (inputHookOnEvent mask cbs
      { event_type := EventType.MouseClicked, time := tm, keyboard := kb
        mouse := none, wheel := w }).delivered = none ∧
    (inputHookOnEvent mask cbs
      { event_type := EventType.MouseMoved, time := tm, keyboard := kb
        mouse := none, wheel := w }).delivered = none ∧
    (inputHookOnEvent mask cbs
      { event_type := EventType.MouseDragged, time := tm, keyboard := kb
        mouse := none, wheel := w }).delivered = none ∧
    (inputHookOnEvent mask cbs
      { event_type := EventType.MouseWheel, time := tm, keyboard := kb
        mouse := m, wheel := none }).delivered = none := by
  obtain ⟨kd, ku, md, mu, mc, mm, mw⟩ := cbs
  refine ⟨?_, ?_, ?_, ?_, ?_, ?_, ?_, ?_⟩ <;>
    · unfold inputHookOnEvent
      dsimp only
      split
      · rfl
      · first
        | (cases kd <;> rfl)
        | (cases ku <;> rfl)
        | (cases md <;> rfl)
        | (cases mu <;> rfl)
        | (cases mc <;> rfl)
        | (cases mm <;> rfl)
        | (cases mw <;> rfl)

/-- Any payload the per-slot dispatch hands across the boundary carries the
normalized timestamp of the event it came from. -/
theorem delivered_time_normalized (mask : Nat) (cbs : InputHookCallbacks) (e : Event)
    (d : Delivery) (h : (inputHookOnEvent mask cbs e).delivered = some d) :
    deliveryTime d = normalizeTime e.time := by
  obtain ⟨t, tm, kb, m, w⟩ := e
  unfold inputHookOnEvent at h
  dsimp only at h
  split at h
  · exact Option.noConfusion h
  · cases t <;> dsimp only at h <;>
      first
      | exact Option.noConfusion h
      | (split at h <;>
          first
          | (injection h with h
             subst h
             rfl)
          | exact Option.noConfusion h)

/-- C8: the time field delivered across the boundary is the normalized native
timestamp: an unrepresentable timestamp becomes 0.0 and a representable one
its seconds-since-epoch value, both in the generic `EventJs` conversion and in
every per-slot payload; the normalization is total, so no error can come from
it. -/
theorem time_normalization :
    normalizeTime none = 0.0 ∧
    (∀ s : Float, normalizeTime (some s) = s) ∧
    (∀ e : Event, (EventJs.fromEvent e).time = normalizeTime e.time) ∧
    (∀ e : Event, e.time = none → (EventJs.fromEvent e).time = 0.0) ∧
    (∀ (mask : Nat) (cbs : InputHookCallbacks) (e : Event) (d : Delivery),
      (inputHookOnEvent mask cbs e).delivered = some d →
        deliveryTime d = normalizeTime e.time) := by
  refine ⟨rfl, fun s => rfl, fun e => rfl, ?_, delivered_time_normalized⟩
  intro e he
  show normalizeTime e.time = 0.0
  rw [he]
  rfl

/-- C8 witness: an event with an unrepresentable timestamp converts with time
0.0, and a concretely delivered key payload carries the normalized time. -/
theorem time_normalization_witness :
    (EventJs.fromEvent sampleNoTimeEvent).time = 0.0 ∧
    deliveryTime (Delivery.keyDown 3
      { key := KeyJs.KeyA, raw_code := 30, time := 1.0 }) = normalizeTime (some 1.0) := by
  constructor
  · exact time_normalization.2.2.2.1 sampleNoTimeEvent rfl
  · exact time_normalization.2.2.2.2 2047 sampleCbs sampleKeyEvent
      (Delivery.keyDown 3 { key := KeyJs.KeyA, raw_code := 30, time := 1.0 }) rfl

/-- C7: a mouse-button event (pressed, released or clicked) that passes the
mask with its slot registered but whose native payload has no button field is
delivered — not dropped — and the payload handed to the callback carries the
Left (primary) button. -/
theorem missing_button_defaults_to_left (mask : Nat) (cbs : InputHookCallbacks)
    (tsfn : TsFn) (tm : Option Float) (x y : Float) (kb : Option KeyboardData)
    (w : Option WheelData) :
    (cbs.mouse_down = some tsfn → mask &&& (1 <<< 5) ≠ 0 →
      (inputHookOnEvent mask cbs
        { event_type := EventType.MousePressed, time := tm, keyboard := kb
          mouse := some { x := x, y := y, button := none }, wheel := w }).delivered =
        some (Delivery.mouseDown tsfn
          { x := x, y := y, button := ButtonJs.Left, time := normalizeTime tm })) ∧
    (cbs.mouse_up = some tsfn → mask &&& (1 <<< 6) ≠ 0 →
      (inputHookOnEvent mask cbs
        { event_type := EventType.MouseReleased, time := tm, keyboard := kb
          mouse := some { x := x, y := y, button := none }, wheel := w }).delivered =
        some (Delivery.mouseUp tsfn
          { x := x, y := y, button := ButtonJs.Left, time := normalizeTime tm })) ∧
    (cbs.mouse_click = some tsfn → mask &&& (1 <<< 7) ≠ 0 →
      (inputHookOnEvent mask cbs
        { event_type := EventType.MouseClicked, time := tm, keyboard := kb
          mouse := some { x := x, y := y, button := none }, wheel := w }).delivered =
        some (Delivery.click tsfn
          { x := x, y := y, button := ButtonJs.Left, time := normalizeTime tm })) := by
  refine ⟨?_, ?_, ?_⟩ <;>
    · intro h1 h2
      unfold inputHookOnEvent
      dsimp only
      rw [h1, if_neg (by simp only [event_type_bit, beq_iff_eq]; exact h2)]
      rfl

/-- C7 witness: with the mouse-down slot registered and a full mask, the
concrete buttonless mouse-press event is delivered with the Left button. -/
theorem missing_button_defaults_to_left_witness :
    (inputHookOnEvent 2047 sampleCbs sampleNoButtonEvent).delivered =
      some (Delivery.mouseDown 5
        { x := 3.0, y := 4.0, button := ButtonJs.Left, time := 2.0 }) :=
  (missing_button_defaults_to_left 2047 sampleCbs 5 (some 2.0) 3.0 4.0 none none).1
    rfl (by decide)

/-- C2 counterexample: a generic listener started with an explicit zero mask
keeps mask zero — not all categories — and drops a key-press event instead of
receiving every category. -/
theorem startListen_explicit_zero_mask_drops :
    startListenInitMask (some 0) = 0 ∧
    startListenInitMask (some 0) ≠ EVENT_MASK_ALL ∧
    startListenOnEvent (startListenInitMask (some 0)) sampleKeyEvent = none :=
  ⟨rfl, by decide, rfl⟩

/-- C2 (amended): the zero-mask policy. In the generic-listener path an
omitted mask defaults to all categories, and the pattern helper
`compute_event_mask` coerces an accumulated zero mask to all categories; but
an explicit zero mask handed to `start_listen` is kept as zero and every event
is dropped, and in the per-category registry path a zero mask likewise drops
every event before the registry is touched. -/
theorem zero_mask_policy :
    startListenInitMask none = EVENT_MASK_ALL ∧
    (∀ ps : List String, computeEventMaskRaw ps = 0 →
      compute_event_mask ps = EVENT_MASK_ALL) ∧
    startListenInitMask (some 0) = 0 ∧
    (∀ e : Event, startListenOnEvent 0 e = none) ∧
    (∀ (cbs : InputHookCallbacks) (e : Event),
      inputHookOnEvent 0 cbs e = { lockedRegistry := false, delivered := none }) := by
  refine ⟨rfl, ?_, rfl, ?_, ?_⟩
  · intro ps h
    simp [compute_event_mask, h]
  · intro e
    simp [startListenOnEvent, Nat.zero_and]
  · intro cbs e
    simp [inputHookOnEvent, Nat.zero_and]

/-- C2 witness: an empty pattern list coerces to the all-categories mask, and
mask zero drops a concrete event on both paths. -/
theorem zero_mask_policy_witness :
    compute_event_mask ([] : List String) = EVENT_MASK_ALL ∧
    startListenOnEvent 0 sampleHookEnabledEvent = none ∧
    inputHookOnEvent 0 sampleCbs sampleKeyEvent =
      { lockedRegistry := false, delivered := none } :=
  ⟨zero_mask_policy.2.1 [] rfl, zero_mask_policy.2.2.2.1 sampleHookEnabledEvent,
    zero_mask_policy.2.2.2.2 sampleCbs sampleKeyEvent⟩

end Monio
